import Mathlib

/-!
# SwapWatch engine: a shallow embedding

This file embeds the telemetry/caching/remediation engine of `swapwatch.py`
in Lean 4 and proves properties of its specification against it.

Modelling conventions:
* Python `float` time stamps and percentages become `ℚ` (exact, decidable).
* The process table, per-pid swap readings and clock are passed explicitly
  as environment parameters, in the order the source reads them.
* Python dicts keyed by strings become association lists in insertion order
  (Python dicts iterate in insertion order, which the source relies on).
* Exceptions that the source swallows per item are folded into the
  environment (a missing process simply does not appear in the snapshot;
  an unreadable per-pid status record yields 0 bytes, as in
  `batch_read_swap_data`).
-/

namespace SwapWatch

/-- One configured entry of the `monitored_apps` table:
`process_name: (service_name, include_children)`. -/
structure MonitoredApp where
  namePattern : String
  serviceName : String
  includeChildren : Bool
deriving Repr, DecidableEq

/-! ## AlertManager (`swapwatch.py` lines 306-382) -/

/-- The two delivery channels of `AlertManager`. -/
inductive Channel where
  | email
  | webhook
deriving Repr, DecidableEq

/-- The configuration fields of `AlertManager.__init__` that the alert
logic reads (`enabled`, `cooldown_minutes * 60`, per-channel enable flags
and targets). -/
structure AlertConfig where
  enabled : Bool
  cooldown_seconds : ℚ
  email_enabled : Bool
  email_to : String
  webhook_enabled : Bool
  webhook_url : String
deriving Repr, DecidableEq

/-- The mutable state of `AlertManager`: the `_last_sent` dict from alert
key to the time it was last sent.  An association list where the most
recent binding for a key is first (an update conses in front, and
`List.lookup` returns the first binding). -/
structure AlertState where
  last_sent : List (String × ℚ)
deriving Repr, DecidableEq

/-- `self._last_sent.get(alert_key, 0)`. -/
def lookupLastSent (st : AlertState) (key : String) : ℚ :=
  match st.last_sent.lookup key with
  | some t => t
  | none => 0

/-- `AlertManager._is_cooled_down`: `(time.time() - last) >= self.cooldown_seconds`. -/
def is_cooled_down (cfg : AlertConfig) (st : AlertState) (key : String) (now : ℚ) : Bool :=
  decide (now - lookupLastSent st key ≥ cfg.cooldown_seconds)

/-- `self._last_sent[alert_key] = time.time()`. -/
def setLastSent (st : AlertState) (key : String) (now : ℚ) : AlertState :=
  ⟨(key, now) :: st.last_sent⟩

/-- Python `s[:n]`, written over the character list so that it evaluates
by kernel reduction. -/
def strTake (s : String) (n : Nat) : String := ⟨s.data.take n⟩

/-- `alert_key = f"{severity}:{message[:50]}"`. -/
def alertKey (severity message : String) : String :=
  severity ++ ":" ++ strTake message 50

/-- `AlertManager.send_alert`.  Returns the updated state together with the
list of channels on which a delivery is attempted.  Each channel attempt
(`_send_email` / `_send_webhook`) swallows its own exceptions and does not
touch `_last_sent`, so a delivery failure has no effect on the state; the
model therefore records only which attempts are made. -/
def send_alert (cfg : AlertConfig) (st : AlertState) (severity message : String)
    (now : ℚ) : AlertState × List Channel :=
  if cfg.enabled = false then (st, [])
  else
    let key := alertKey severity message
    if is_cooled_down cfg st key now = false then (st, [])
    else
      let st' := setLastSent st key now
      let attempts :=
        (if cfg.email_enabled = true ∧ cfg.email_to ≠ "" then [Channel.email] else []) ++
        (if cfg.webhook_enabled = true ∧ cfg.webhook_url ≠ "" then [Channel.webhook] else [])
      (st', attempts)

/-! ## MetricsDB (`swapwatch.py` lines 388-497) -/

/-- The fields of `MetricsDB` that control whether persistence happens:
`self.enabled`, whether `self._conn` is non-`None`, and
`self._last_sample_time`. -/
structure MetricsState where
  enabled : Bool
  has_conn : Bool
  last_sample_time : ℚ
deriving Repr, DecidableEq

/-- Result of one `record_sample` / `record_action` call: the new state,
whether an INSERT was issued (`attempted`), whether a warning was logged
because the INSERT raised (`warned`), and whether an exception escaped to
the caller (`propagated`). -/
structure RecordResult where
  state : MetricsState
  attempted : Bool
  warned : Bool
  propagated : Bool
deriving Repr, DecidableEq

/-- `MetricsDB.__init__` followed by `_init_db`: when history is enabled,
`_init_db` either succeeds (connection established) or catches its own
exception and sets `self.enabled = False` and `self._conn = None`. -/
def metricsInit (enabledCfg : Bool) (initFails : Bool) : MetricsState :=
  if enabledCfg = true then
    if initFails = true then ⟨false, false, 0⟩ else ⟨true, true, 0⟩
  else ⟨false, false, 0⟩

/-- `MetricsDB.record_sample`: no-op unless enabled with a connection;
throttled against `_last_sample_time`; sets `_last_sample_time = now`
before the `try` block; an INSERT failure is caught and logged
(`logging.warning`) inside the method, leaving `enabled` and `_conn`
untouched. -/
def record_sample (sample_interval : ℚ) (st : MetricsState) (now : ℚ)
    (insertFails : Bool) : RecordResult :=
  if st.enabled = false ∨ st.has_conn = false then ⟨st, false, false, false⟩
  else if now - st.last_sample_time < sample_interval then ⟨st, false, false, false⟩
  else
    let st' := { st with last_sample_time := now }
    ⟨st', true, insertFails, false⟩

/-- `MetricsDB.record_action`: no-op unless enabled with a connection;
never throttled; an INSERT failure is caught and logged inside the
method, leaving `enabled` and `_conn` untouched. -/
def record_action (st : MetricsState) (insertFails : Bool) : RecordResult :=
  if st.enabled = false ∨ st.has_conn = false then ⟨st, false, false, false⟩
  else ⟨st, true, insertFails, false⟩

/-! ## ProcessResolver (`get_monitored_pids_cached`, lines 1449-1515) -/

/-- Snapshot of one live process as `psutil.process_iter` reports it:
pid, name, executable path, argument list, and the pids of
`proc.children(recursive=True)` in enumeration order. -/
structure ProcInfo where
  pid : Nat
  name : String
  exe : String
  cmdline : List String
  children : List Nat
deriving Repr, DecidableEq

/-- Python `str.lower`, written over the character list so that it
evaluates by kernel reduction. -/
def strLower (s : String) : String := ⟨s.data.map Char.toLower⟩

/-- Does the character list start with the given pattern? -/
def charsStartWith : List Char → List Char → Bool
  | _, [] => true
  | [], _ :: _ => false
  | c :: cs, p :: ps => c == p && charsStartWith cs ps

/-- Does `pat` occur as a contiguous run inside the character list? -/
def charsContain (pat : List Char) : List Char → Bool
  | [] => pat.isEmpty
  | c :: cs => charsStartWith (c :: cs) pat || charsContain pat cs

/-- Python `pat in hay` (substring containment). -/
def strContains (hay pat : String) : Bool := charsContain pat.data hay.data

/-- The per-process match test of the scan loop (lines 1470-1480):
lower-case the process name, executable and arguments, and test the
lower-cased pattern as a substring of any of the three.  The `exe and`
guard mirrors Python string truthiness. -/
def procMatches (p : ProcInfo) (pattern : String) : Bool :=
  let mon_l := strLower pattern
  let proc_name := strLower p.name
  let exe := strLower p.exe
  let cmdline_list := p.cmdline.map strLower
  strContains proc_name mon_l ||
    (exe != "" && strContains exe mon_l) ||
    cmdline_list.any (fun arg => strContains arg mon_l)

/-- One value of the `new_pid_cache` dict: `pids` list (appended to, in
order), the app's `include_children` flag and the `has_children` flag. -/
structure PidEntry where
  pids : List Nat
  include_children : Bool
  has_children : Bool
deriving Repr, DecidableEq

/-- Append `newPids` to the entry of `name` in the cache, creating the
entry if absent (dict insertion order: new keys go to the end) and
or-ing `has_children`. -/
def addToEntry (cache : List (String × PidEntry)) (name : String) (inc : Bool)
    (newPids : List Nat) (foundChildren : Bool) : List (String × PidEntry) :=
  match cache with
  | [] => [(name, ⟨newPids, inc, foundChildren⟩)]
  | (n, e) :: rest =>
    if n = name then
      (n, ⟨e.pids ++ newPids, e.include_children, e.has_children || foundChildren⟩) :: rest
    else (n, e) :: addToEntry rest name inc newPids foundChildren

/-- One iteration of the scan's process loop: the first matching app (in
`monitored_apps` insertion order) receives the process's pid, plus its
recursive children when `include_children` is set; `break` stops after
the first match. -/
def scanStep (apps : List MonitoredApp) (cache : List (String × PidEntry))
    (p : ProcInfo) : List (String × PidEntry) :=
  match apps.find? (fun a => procMatches p a.namePattern) with
  | none => cache
  | some a =>
    let childPids := if a.includeChildren then p.children else []
    addToEntry cache a.namePattern a.includeChildren (p.pid :: childPids)
      (a.includeChildren && !p.children.isEmpty)

/-- The full scan (`for proc in psutil.process_iter(...)`), building
`new_pid_cache` from an empty dict. -/
def scanProcesses (apps : List MonitoredApp) (procs : List ProcInfo) :
    List (String × PidEntry) :=
  procs.foldl (scanStep apps) []

/-- The `_performance_stats` dict (the fields the engine logic reads). -/
structure PerfStats where
  process_scans : Nat
  file_reads : Nat
  cache_hits : Nat
  last_scan_duration : ℚ
  adaptive_cache_time : ℚ
deriving Repr, DecidableEq

/-- The module-level initial value of `_performance_stats`. -/
def initPerfStats : PerfStats := ⟨0, 0, 0, 0, 10⟩

/-- One element of the list `get_top_swap_apps` returns (lines
1575-1581). -/
structure AppUsage where
  name : String
  swap_bytes : Nat
  swap_percent : ℚ
  include_children : Bool
  has_children : Bool
deriving Repr, DecidableEq

/-- The module-level mutable engine state: `_cached_monitored_pids`,
`_cached_swap_data`, `_last_pid_scan`, `_last_swap_scan`,
`_performance_stats`. -/
structure EngineState where
  cached_monitored_pids : List (String × PidEntry)
  cached_swap_data : List AppUsage
  last_pid_scan : ℚ
  last_swap_scan : ℚ
  stats : PerfStats

/-- `get_monitored_pids_cached(force_refresh)`.  `now` is the
`time.time()` read at entry; `scanDuration` is the observed wall time of
the fresh-scan branch (`time.time() - start_time`). -/
def get_monitored_pids_cached (apps : List MonitoredApp) (procs : List ProcInfo)
    (now scanDuration : ℚ) (st : EngineState) (force_refresh : Bool) :
    List (String × PidEntry) × EngineState :=
  if force_refresh = false ∧ now - st.last_pid_scan < 30 ∧
      st.cached_monitored_pids ≠ [] then
    (st.cached_monitored_pids,
     { st with stats := { st.stats with cache_hits := st.stats.cache_hits + 1 } })
  else
    let newCache := scanProcesses apps procs
    (newCache,
     { st with
        cached_monitored_pids := newCache
        last_pid_scan := now
        stats := { st.stats with
          process_scans := st.stats.process_scans + 1
          last_scan_duration := scanDuration } })

/-! ## SwapTelemetryCollector (`get_top_swap_apps`, lines 1519-1601) and
the adaptive cache controller (lines 1590-1599, `apply_config` lines
280-285) -/

/-- The environment one `get_top_swap_apps` call reads: the clock, the
primary swap capacity (`psutil.swap_memory().total`), the
`SwapTotal:` kilobyte figure of `/proc/meminfo` (0 when absent or
unreadable), the live process table, the wall time a pid scan takes, the
per-pid `VmSwap` bytes (0 when the status record is missing or
malformed, as `batch_read_swap_data` yields), and the system swap
percentage read for the adaptive update. -/
structure CollectEnv where
  now : ℚ
  total_swap_primary : Nat
  meminfo_swap_kb : Nat
  procs : List ProcInfo
  pid_scan_duration : ℚ
  swapOf : Nat → Nat
  system_swap_percent : ℚ

/-- The adaptive cache-time update at the end of a real collection
(lines 1595-1599): shrink toward the hard-coded floor 10 under stress,
grow toward the hard-coded ceiling 30 when idle, else unchanged. -/
def adaptiveUpdate (t current_swap_usage scan_duration : ℚ) : ℚ :=
  if current_swap_usage > 50 ∨ scan_duration > 2 then max 10 (t - 1)
  else if current_swap_usage < 20 ∧ scan_duration < 1/2 then min 30 (t + 2)
  else t

/-- The `performance` section of the config file. -/
structure PerfConfig where
  adaptive_cache_min : ℚ
  adaptive_cache_max : ℚ
deriving Repr, DecidableEq

/-- `apply_config` on the `performance` section (lines 280-285): the
configured minimum becomes the current adaptive cache time; the stored
min/max keys are never read by the update logic, so only the time field
matters to the engine. -/
def apply_perf_config (stats : PerfStats) (cfg : PerfConfig) : PerfStats :=
  { stats with adaptive_cache_time := cfg.adaptive_cache_min }

/-- The sort on line 1584,
`app_swap_usage.sort(key=lambda x: x['swap_percent'], reverse=True)`:
Python's sort is stable, and a stable descending sort's output is
uniquely determined by the input, so `List.insertionSort` with the
reflexive, total and transitive relation `b.swap_percent ≤ a.swap_percent`
models it exactly. -/
def rankUsage (l : List AppUsage) : List AppUsage :=
  l.insertionSort (fun a b => b.swap_percent ≤ a.swap_percent)

/-- `get_top_swap_apps(force_refresh)`. -/
def get_top_swap_apps (apps : List MonitoredApp) (env : CollectEnv) (st : EngineState)
    (force_refresh : Bool) : List AppUsage × EngineState :=
  let adaptive_cache_time := st.stats.adaptive_cache_time
  if force_refresh = false ∧ env.now - st.last_swap_scan < adaptive_cache_time ∧
      st.cached_swap_data ≠ [] then
    (st.cached_swap_data,
     { st with stats := { st.stats with cache_hits := st.stats.cache_hits + 1 } })
  else
    let total_swap :=
      if env.total_swap_primary = 0 then env.meminfo_swap_kb * 1024
      else env.total_swap_primary
    let st0 :=
      if env.total_swap_primary = 0 then
        { st with stats := { st.stats with file_reads := st.stats.file_reads + 1 } }
      else st
    if total_swap = 0 then
      ([], { st0 with cached_swap_data := [], last_swap_scan := env.now })
    else
      let pr := get_monitored_pids_cached apps env.procs env.now env.pid_scan_duration st0 false
      let pid_cache := pr.1
      let st1 := pr.2
      let all_pids := pid_cache.foldl (fun acc e => acc ++ e.2.pids) []
      let st2 := { st1 with stats :=
        { st1.stats with file_reads := st1.stats.file_reads + all_pids.length } }
      let app_swap_usage := pid_cache.map (fun e =>
        let total_swap_bytes : ℕ := (e.2.pids.map env.swapOf).sum
        let swap_percent : ℚ :=
          if total_swap ≠ 0 then (total_swap_bytes : ℚ) / (total_swap : ℚ) * 100 else 0
        { name := e.1
          swap_bytes := total_swap_bytes
          swap_percent := swap_percent
          include_children := e.2.include_children
          has_children := e.2.has_children : AppUsage })
      let sorted := rankUsage app_swap_usage
      let newT := adaptiveUpdate st2.stats.adaptive_cache_time env.system_swap_percent
        st2.stats.last_scan_duration
      (sorted,
       { st2 with
          cached_swap_data := sorted
          last_swap_scan := env.now
          stats := { st2.stats with adaptive_cache_time := newT } })

/-- Modelled from the spec, for comparison with the source: section 4.2
says a real collection is to "Call ProcessResolver.resolve with the same
`forceRefresh`".  This variant differs from `get_top_swap_apps` only in
passing `force_refresh` through to the resolver instead of the source's
argument-less call (line 1553). -/
def get_top_swap_apps_specResolve (apps : List MonitoredApp) (env : CollectEnv)
    (st : EngineState) (force_refresh : Bool) : List AppUsage × EngineState :=
  let adaptive_cache_time := st.stats.adaptive_cache_time
  if force_refresh = false ∧ env.now - st.last_swap_scan < adaptive_cache_time ∧
      st.cached_swap_data ≠ [] then
    (st.cached_swap_data,
     { st with stats := { st.stats with cache_hits := st.stats.cache_hits + 1 } })
  else
    let total_swap :=
      if env.total_swap_primary = 0 then env.meminfo_swap_kb * 1024
      else env.total_swap_primary
    let st0 :=
      if env.total_swap_primary = 0 then
        { st with stats := { st.stats with file_reads := st.stats.file_reads + 1 } }
      else st
    if total_swap = 0 then
      ([], { st0 with cached_swap_data := [], last_swap_scan := env.now })
    else
      let pr := get_monitored_pids_cached apps env.procs env.now env.pid_scan_duration st0
        force_refresh
      let pid_cache := pr.1
      let st1 := pr.2
      let all_pids := pid_cache.foldl (fun acc e => acc ++ e.2.pids) []
      let st2 := { st1 with stats :=
        { st1.stats with file_reads := st1.stats.file_reads + all_pids.length } }
      let app_swap_usage := pid_cache.map (fun e =>
        let total_swap_bytes : ℕ := (e.2.pids.map env.swapOf).sum
        let swap_percent : ℚ :=
          if total_swap ≠ 0 then (total_swap_bytes : ℚ) / (total_swap : ℚ) * 100 else 0
        { name := e.1
          swap_bytes := total_swap_bytes
          swap_percent := swap_percent
          include_children := e.2.include_children
          has_children := e.2.has_children : AppUsage })
      let sorted := rankUsage app_swap_usage
      let newT := adaptiveUpdate st2.stats.adaptive_cache_time env.system_swap_percent
        st2.stats.last_scan_duration
      (sorted,
       { st2 with
          cached_swap_data := sorted
          last_swap_scan := env.now
          stats := { st2.stats with adaptive_cache_time := newT } })

/-! ## RemediationEngine (`monitor_swap_usage`, lines 1286-1357) -/

/-- The externally observable actions of one remediation tick.  Logging
is side-effect free for the engine and is abstracted away; `alert` is
the `AlertManager.send_alert` call, `dropCaches` the cache-drop
primitive, `restart s` the `restart_app` call on service `s`. -/
inductive Event where
  | alert
  | dropCaches
  | restart (service : String)
deriving Repr, DecidableEq

/-- The restart loop of `monitor_swap_usage` (lines 1319-1346).
`reads k` is the `psutil.swap_memory().percent` value observed after the
(k+1)-th restart; apps whose name is not a `monitored_apps` key are
skipped without a restart or a re-read. -/
def run_cascade (apps : List MonitoredApp) (low : ℚ) (reads : Nat → ℚ) :
    List AppUsage → Nat → List Event
  | [], _ => []
  | app :: rest, k =>
    match apps.find? (fun a => a.namePattern == app.name) with
    | none => run_cascade apps low reads rest k
    | some a =>
      Event.restart a.serviceName ::
        (if reads k < low then [] else run_cascade apps low reads rest (k + 1))

/-- One tick of `monitor_swap_usage`.  `reads 0` is the initial
`psutil.swap_memory().percent`, `reads 1` the re-read after the cache
drop and settle delay, and `reads (k+2)` the re-read after the (k+1)-th
restart.  `top_apps` is the list the tick obtains from
`get_top_swap_apps(force_refresh=True)` (line 1317). -/
def monitor_swap_usage (apps : List MonitoredApp) (high low : ℚ)
    (reads : Nat → ℚ) (top_apps : List AppUsage) : List Event :=
  if reads 0 ≥ high then
    Event.alert :: Event.dropCaches ::
      (if reads 1 ≥ low then run_cascade apps low (fun k => reads (k + 2)) top_apps 0
       else [])
  else []

/-- The services the cascade can restart, in ranked order: the service
names of the ranked apps whose name is a `monitored_apps` key. -/
def monitoredServices (apps : List MonitoredApp) (top_apps : List AppUsage) :
    List String :=
  top_apps.filterMap (fun u =>
    (apps.find? (fun a => a.namePattern == u.name)).map (fun a => a.serviceName))

/-- The restarted services of an event list, in order. -/
def restartsOf (events : List Event) : List String :=
  events.filterMap (fun e =>
    match e with
    | Event.restart s => some s
    | _ => none)

/-! ## Concrete inputs for the examples and counterexamples -/

/-- The flat list of all pids stored across the entries of a pid cache
(the multiset the collector iterates when summing per-app bytes). -/
def allPids (cache : List (String × PidEntry)) : List Nat :=
  (cache.map (fun e => e.2.pids)).flatten

/-- A monitored-app table with a single entry that includes children. -/
def childApps : List MonitoredApp := [⟨"myapp", "myapp.service", true⟩]

/-- A parent process (pid 1) whose recursive child (pid 2) itself
matches the `myapp` pattern by name. -/
def childProcs : List ProcInfo :=
  [⟨1, "myapp", "", [], [2]⟩, ⟨2, "myapp-worker", "", [], []⟩]

/-- A one-app table used by the collector examples. -/
def oneApp : List MonitoredApp := [⟨"a", "a.service", false⟩]

/-- A snapshot in which the only live match for `a` is pid 2. -/
def procsPid2 : List ProcInfo := [⟨2, "a", "", [], []⟩]

/-- Engine state whose pid cache (scanned at time 100) maps `a` to the
stale pid 1. -/
def stalePidState : EngineState :=
  { cached_monitored_pids := [("a", ⟨[1], false, false⟩)]
    cached_swap_data := []
    last_pid_scan := 100
    last_swap_scan := 0
    stats := initPerfStats }

/-- Collector environment at time 110: 100 bytes of system swap, pid 1
holding 50 of them and pid 2 holding 80. -/
def collectEnv110 : CollectEnv :=
  { now := 110
    total_swap_primary := 100
    meminfo_swap_kb := 0
    procs := procsPid2
    pid_scan_duration := 0
    swapOf := fun p => if p = 1 then 50 else 80
    system_swap_percent := 30 }

/-- A three-app table. -/
def threeApps : List MonitoredApp :=
  [⟨"a", "a.service", false⟩, ⟨"b", "b.service", false⟩, ⟨"c", "c.service", false⟩]

/-- One live process per app of `threeApps`. -/
def threeProcs : List ProcInfo :=
  [⟨1, "a", "", [], []⟩, ⟨2, "b", "", [], []⟩, ⟨3, "c", "", [], []⟩]

/-- Apps `a`, `b`, `c` hold 5, 2 and 0 of the 100 system swap bytes, so
their usage is 5%, 2% and 0%. -/
def threeAppEnv : CollectEnv :=
  { now := 0
    total_swap_primary := 100
    meminfo_swap_kb := 0
    procs := threeProcs
    pid_scan_duration := 0
    swapOf := fun p => if p = 1 then 5 else if p = 2 then 2 else 0
    system_swap_percent := 30 }

/-- The module-level initial engine state. -/
def initEngineState : EngineState := ⟨[], [], 0, 0, initPerfStats⟩

/-! ## Theorems -/

/-- C2: on any tick whose initially read system swap percentage is below
`highThreshold`, `monitor_swap_usage` performs no remediation action at
all — the event list is empty, so in particular the cache-drop primitive
and the restart primitive are never invoked (the tick only logs). -/
theorem C2_below_high_no_action (apps : List MonitoredApp) (high low : ℚ)
    (reads : Nat → ℚ) (top_apps : List AppUsage) (h : reads 0 < high) :
    monitor_swap_usage apps high low reads top_apps = [] ∧
    Event.dropCaches ∉ monitor_swap_usage apps high low reads top_apps ∧
    ∀ s, Event.restart s ∉ monitor_swap_usage apps high low reads top_apps := by
  have he : monitor_swap_usage apps high low reads top_apps = [] := by
    unfold monitor_swap_usage
    rw [if_neg (not_le.mpr h)]
  refine ⟨he, ?_, ?_⟩
  · rw [he]; exact List.not_mem_nil _
  · intro s; rw [he]; exact List.not_mem_nil _

/-- Witness for C2 at `swapPercent = 70`, thresholds 80/65. -/
theorem C2_below_high_no_action_witness :
    ((70:ℚ) < 80) ∧
    (monitor_swap_usage oneApp 80 65 (fun _ => 70) [] = [] ∧
     Event.dropCaches ∉ monitor_swap_usage oneApp 80 65 (fun _ => 70) [] ∧
     ∀ s, Event.restart s ∉ monitor_swap_usage oneApp 80 65 (fun _ => 70) []) :=
  ⟨by norm_num, C2_below_high_no_action oneApp 80 65 (fun _ => 70) [] (by norm_num)⟩

/-- C3 counterexample: with metrics enabled and a healthy connection, a
failing INSERT inside `record_sample` (the warning is logged) leaves
`enabled` true, and the very next `record_action` still attempts an
INSERT — it is not a no-op, contradicting the claim that any persistence
error disables persistence for the rest of the session. -/
theorem C3_counterexample :
    (record_sample 300 (metricsInit true false) 1000 true).warned = true ∧
    (record_sample 300 (metricsInit true false) 1000 true).propagated = false ∧
    (record_sample 300 (metricsInit true false) 1000 true).state.enabled = true ∧
    (record_action (record_sample 300 (metricsInit true false) 1000 true).state
        false).attempted = true := by
  norm_num [metricsInit, record_sample, record_action]

/-- C3 (amended): persistence errors never propagate to the caller and
never change the enabled/connection state: an INSERT failure in
`record_sample` or `record_action` is swallowed where it occurs, and
persistence stays enabled.  Only a failure of `_init_db` disables the
store for the session, after which both record calls are no-ops. -/
theorem C3_amended_fail_soft (sample_interval now : ℚ) (st : MetricsState) (f g : Bool) :
    (record_sample sample_interval st now f).propagated = false ∧
    (record_sample sample_interval st now f).state.enabled = st.enabled ∧
    (record_sample sample_interval st now f).state.has_conn = st.has_conn ∧
    (record_action st g).propagated = false ∧
    (record_action st g).state = st ∧
    (metricsInit true true).enabled = false ∧
    (record_sample sample_interval (metricsInit true true) now f).attempted = false ∧
    (record_action (metricsInit true true) g).attempted = false := by
  unfold record_sample record_action metricsInit
  refine ⟨?_, ?_, ?_, ?_, ?_, ?_, ?_, ?_⟩ <;>
    (split <;> first | rfl | (split <;> rfl))

/-- C5 counterexample: with `adaptive_cache_min = 15` and
`adaptive_cache_max = 30` applied from the config, the initial TTL is
15, but a single stressed update (`systemSwapPercent = 60`) produces
`max(10, 15 - 1) = 14`, which is outside the configured bounds
`[15, 30]` — the update logic uses the hard-coded floor 10, not the
configured minimum. -/
theorem C5_counterexample :
    (apply_perf_config initPerfStats ⟨15, 30⟩).adaptive_cache_time = 15 ∧
    adaptiveUpdate 15 60 0 = 14 ∧
    ¬ (15 ≤ adaptiveUpdate 15 60 0 ∧ adaptiveUpdate 15 60 0 ≤ 30) := by
  have h : adaptiveUpdate 15 60 0 = 14 := by
    unfold adaptiveUpdate
    rw [if_pos (by norm_num)]
    rw [show (15:ℚ) - 1 = 14 by norm_num, max_eq_right (by norm_num)]
  refine ⟨rfl, h, ?_⟩
  rw [h]
  norm_num

/-- One adaptive update keeps the TTL within the hard-coded `[10, 30]`. -/
theorem adaptiveUpdate_bounds (t s d : ℚ) (h1 : 10 ≤ t) (h2 : t ≤ 30) :
    10 ≤ adaptiveUpdate t s d ∧ adaptiveUpdate t s d ≤ 30 := by
  unfold adaptiveUpdate
  split
  · exact ⟨le_max_left _ _, max_le (by norm_num) (by linarith)⟩
  · split
    · exact ⟨le_min (by norm_num) (by linarith), min_le_left _ _⟩
    · exact ⟨h1, h2⟩

/-- C5 (amended): the adaptive TTL update uses the hard-coded bounds
10 and 30 of `get_top_swap_apps`, not the configured
`adaptive_cache_min`/`adaptive_cache_max` (those only set the starting
value).  For any sequence of updates starting from a TTL inside
`[10, 30]`, the TTL stays inside `[10, 30]`. -/
theorem C5_amended_hardcoded_bounds (t : ℚ) (updates : List (ℚ × ℚ))
    (h1 : 10 ≤ t) (h2 : t ≤ 30) :
    10 ≤ updates.foldl (fun acc u => adaptiveUpdate acc u.1 u.2) t ∧
      updates.foldl (fun acc u => adaptiveUpdate acc u.1 u.2) t ≤ 30 := by
  induction updates generalizing t with
  | nil => exact ⟨h1, h2⟩
  | cons u rest ih =>
    have hb := adaptiveUpdate_bounds t u.1 u.2 h1 h2
    simpa using ih _ hb.1 hb.2

/-- Witness for the amended C5 at the default TTL 10 with one stressed
update. -/
theorem C5_amended_hardcoded_bounds_witness :
    (10 ≤ (10:ℚ) ∧ (10:ℚ) ≤ 30) ∧
    (10 ≤ [((60:ℚ), (0:ℚ))].foldl (fun acc u => adaptiveUpdate acc u.1 u.2) 10 ∧
      [((60:ℚ), (0:ℚ))].foldl (fun acc u => adaptiveUpdate acc u.1 u.2) 10 ≤ 30) :=
  ⟨⟨by norm_num, by norm_num⟩,
   C5_amended_hardcoded_bounds 10 [(60, 0)] (by norm_num) (by norm_num)⟩

/-- C6: a resolver call with `force_refresh = false`, within 30 seconds
of the last scan and with a non-empty cache, returns the cached map
unchanged, increments only the cache-hit counter (not the scan counter),
leaves the cache and scan time untouched, and a second such call within
the window returns the identical map again. -/
theorem C6_resolver_cache_hit (apps : List MonitoredApp) (procs : List ProcInfo)
    (now d now2 d2 : ℚ) (st : EngineState)
    (h30 : now - st.last_pid_scan < 30)
    (hne : st.cached_monitored_pids ≠ []) :
    (get_monitored_pids_cached apps procs now d st false).1 = st.cached_monitored_pids ∧
    (get_monitored_pids_cached apps procs now d st false).2.stats.cache_hits =
      st.stats.cache_hits + 1 ∧
    (get_monitored_pids_cached apps procs now d st false).2.stats.process_scans =
      st.stats.process_scans ∧
    (get_monitored_pids_cached apps procs now d st false).2.cached_monitored_pids =
      st.cached_monitored_pids ∧
    (get_monitored_pids_cached apps procs now d st false).2.last_pid_scan =
      st.last_pid_scan ∧
    (now2 - st.last_pid_scan < 30 →
      (get_monitored_pids_cached apps procs now2 d2
          (get_monitored_pids_cached apps procs now d st false).2 false).1 =
        st.cached_monitored_pids) := by
  have h1 : get_monitored_pids_cached apps procs now d st false =
      (st.cached_monitored_pids,
        { st with stats := { st.stats with cache_hits := st.stats.cache_hits + 1 } }) := by
    unfold get_monitored_pids_cached
    rw [if_pos ⟨rfl, h30, hne⟩]
  rw [h1]
  refine ⟨rfl, rfl, rfl, rfl, rfl, fun h2 => ?_⟩
  unfold get_monitored_pids_cached
  rw [if_pos ⟨rfl, h2, hne⟩]

/-- Witness for C6 on `stalePidState` at times 110 and 120. -/
theorem C6_resolver_cache_hit_witness :
    ((110:ℚ) - stalePidState.last_pid_scan < 30 ∧
      stalePidState.cached_monitored_pids ≠ []) ∧
    ((get_monitored_pids_cached oneApp procsPid2 110 0 stalePidState false).1 =
        stalePidState.cached_monitored_pids ∧
     (get_monitored_pids_cached oneApp procsPid2 110 0 stalePidState false).2.stats.cache_hits =
        stalePidState.stats.cache_hits + 1 ∧
     (get_monitored_pids_cached oneApp procsPid2 110 0 stalePidState false).2.stats.process_scans =
        stalePidState.stats.process_scans ∧
     (get_monitored_pids_cached oneApp procsPid2 110 0 stalePidState false).2.cached_monitored_pids =
        stalePidState.cached_monitored_pids ∧
     (get_monitored_pids_cached oneApp procsPid2 110 0 stalePidState false).2.last_pid_scan =
        stalePidState.last_pid_scan ∧
     ((120:ℚ) - stalePidState.last_pid_scan < 30 →
       (get_monitored_pids_cached oneApp procsPid2 120 0
           (get_monitored_pids_cached oneApp procsPid2 110 0 stalePidState false).2 false).1 =
         stalePidState.cached_monitored_pids)) :=
  ⟨⟨by norm_num [stalePidState], by simp [stalePidState]⟩,
   C6_resolver_cache_hit oneApp procsPid2 110 0 120 0 stalePidState
     (by norm_num [stalePidState]) (by simp [stalePidState])⟩

/-- Messages that agree on their first 50 characters produce the same
alert key. -/
theorem alertKey_eq_of_take (sev msg1 msg2 : String)
    (h : strTake msg1 50 = strTake msg2 50) : alertKey sev msg1 = alertKey sev msg2 := by
  unfold alertKey
  rw [h]

/-- Looking up the key just written returns the time just written. -/
theorem lookupLastSent_setLastSent (st : AlertState) (k : String) (t : ℚ) :
    lookupLastSent (setLastSent st k t) k = t := by
  simp [lookupLastSent, setLastSent, List.lookup]

/-- A cooled-down `send_alert` with alerting enabled records the send
time and attempts exactly the configured channels. -/
theorem send_alert_of_cooled (cfg : AlertConfig) (st : AlertState) (sev msg : String)
    (now : ℚ) (hen : cfg.enabled = true)
    (hc : is_cooled_down cfg st (alertKey sev msg) now = true) :
    send_alert cfg st sev msg now =
      (setLastSent st (alertKey sev msg) now,
        (if cfg.email_enabled = true ∧ cfg.email_to ≠ "" then [Channel.email] else []) ++
        (if cfg.webhook_enabled = true ∧ cfg.webhook_url ≠ "" then [Channel.webhook] else [])) := by
  unfold send_alert
  rw [if_neg (by simp [hen]), if_neg (by simp [hc])]

/-- A `send_alert` within the cooldown window changes nothing and
attempts no channel. -/
theorem send_alert_of_not_cooled (cfg : AlertConfig) (st : AlertState) (sev msg : String)
    (now : ℚ) (hen : cfg.enabled = true)
    (hc : is_cooled_down cfg st (alertKey sev msg) now = false) :
    send_alert cfg st sev msg now = (st, []) := by
  unfold send_alert
  rw [if_neg (by simp [hen]), if_pos hc]

/-- C8: two `send_alert` calls with the same severity, messages that
agree on their first 50 characters, the first cooled down and the second
within the first's cooldown window, make exactly one delivery attempt
per enabled-and-configured channel across both calls — the second call
attempts nothing. -/
theorem C8_cooldown_suppresses (cfg : AlertConfig) (st : AlertState)
    (sev msg1 msg2 : String) (t1 t2 : ℚ)
    (hen : cfg.enabled = true)
    (hmsg : strTake msg1 50 = strTake msg2 50)
    (hcool : t1 - lookupLastSent st (alertKey sev msg1) ≥ cfg.cooldown_seconds)
    (hwin : t2 - t1 < cfg.cooldown_seconds)
    (hemail : cfg.email_enabled = true → cfg.email_to ≠ "")
    (hweb : cfg.webhook_enabled = true → cfg.webhook_url ≠ "") :
    (send_alert cfg (send_alert cfg st sev msg1 t1).1 sev msg2 t2).2 = [] ∧
    ((send_alert cfg st sev msg1 t1).2 ++
        (send_alert cfg (send_alert cfg st sev msg1 t1).1 sev msg2 t2).2).count
      Channel.email = (if cfg.email_enabled = true then 1 else 0) ∧
    ((send_alert cfg st sev msg1 t1).2 ++
        (send_alert cfg (send_alert cfg st sev msg1 t1).1 sev msg2 t2).2).count
      Channel.webhook = (if cfg.webhook_enabled = true then 1 else 0) := by
  have hkey : alertKey sev msg2 = alertKey sev msg1 :=
    (alertKey_eq_of_take sev msg1 msg2 hmsg).symm
  have hc1 : is_cooled_down cfg st (alertKey sev msg1) t1 = true := by
    unfold is_cooled_down
    exact decide_eq_true hcool
  have h1 := send_alert_of_cooled cfg st sev msg1 t1 hen hc1
  have hc2 : is_cooled_down cfg (send_alert cfg st sev msg1 t1).1 (alertKey sev msg2) t2
      = false := by
    rw [h1]
    unfold is_cooled_down
    rw [hkey, lookupLastSent_setLastSent]
    exact decide_eq_false (not_le.mpr hwin)
  have h2 := send_alert_of_not_cooled cfg (send_alert cfg st sev msg1 t1).1 sev msg2 t2 hen hc2
  rw [h2, h1]
  refine ⟨rfl, ?_, ?_⟩ <;>
  · by_cases he : cfg.email_enabled = true <;>
      by_cases hw : cfg.webhook_enabled = true <;>
      simp [he, hw, hemail, hweb, List.count_append, List.count_cons]

/-- Witness for C8: enabled alerting with both channels configured,
cooldown 60, sends at times 100 and 120. -/
theorem C8_cooldown_suppresses_witness :
    ((⟨true, 60, true, "ops@example.org", true, "http://h/hook", ⟩ : AlertConfig).enabled
        = true ∧
      strTake "swap high" 50 = strTake "swap high" 50 ∧
      (100:ℚ) - lookupLastSent ⟨[]⟩ (alertKey "critical" "swap high") ≥ 60 ∧
      (120:ℚ) - 100 < 60) ∧
    ((send_alert ⟨true, 60, true, "ops@example.org", true, "http://h/hook"⟩
        (send_alert ⟨true, 60, true, "ops@example.org", true, "http://h/hook"⟩ ⟨[]⟩
          "critical" "swap high" 100).1 "critical" "swap high" 120).2 = [] ∧
      ((send_alert ⟨true, 60, true, "ops@example.org", true, "http://h/hook"⟩ ⟨[]⟩
          "critical" "swap high" 100).2 ++
        (send_alert ⟨true, 60, true, "ops@example.org", true, "http://h/hook"⟩
          (send_alert ⟨true, 60, true, "ops@example.org", true, "http://h/hook"⟩ ⟨[]⟩
            "critical" "swap high" 100).1 "critical" "swap high" 120).2).count
        Channel.email = (if (true : Bool) = true then 1 else 0) ∧
      ((send_alert ⟨true, 60, true, "ops@example.org", true, "http://h/hook"⟩ ⟨[]⟩
          "critical" "swap high" 100).2 ++
        (send_alert ⟨true, 60, true, "ops@example.org", true, "http://h/hook"⟩
          (send_alert ⟨true, 60, true, "ops@example.org", true, "http://h/hook"⟩ ⟨[]⟩
            "critical" "swap high" 100).1 "critical" "swap high" 120).2).count
        Channel.webhook = (if (true : Bool) = true then 1 else 0)) :=
  ⟨⟨rfl, rfl, by norm_num [lookupLastSent], by norm_num⟩,
   C8_cooldown_suppresses ⟨true, 60, true, "ops@example.org", true, "http://h/hook"⟩ ⟨[]⟩
     "critical" "swap high" "swap high" 100 120 rfl rfl
     (by norm_num [lookupLastSent]) (by norm_num)
     (fun _ => by simp) (fun _ => by simp)⟩

/-- C10: whenever alerting is enabled and the key's cooldown has
elapsed, `send_alert` records `lastSentAt[key] = now` no matter which
channels are enabled or how delivery turns out (the state is quantified
over every channel configuration, and delivery failures never reach the
state), so an identical alert within the following window attempts no
delivery at all. -/
theorem C10_timestamp_before_delivery (cfg : AlertConfig) (st : AlertState)
    (sev msg msg2 : String) (t1 t2 : ℚ)
    (hen : cfg.enabled = true)
    (hcool : t1 - lookupLastSent st (alertKey sev msg) ≥ cfg.cooldown_seconds)
    (hmsg : strTake msg 50 = strTake msg2 50)
    (hwin : t2 - t1 < cfg.cooldown_seconds) :
    lookupLastSent (send_alert cfg st sev msg t1).1 (alertKey sev msg) = t1 ∧
    (send_alert cfg (send_alert cfg st sev msg t1).1 sev msg2 t2).2 = [] := by
  have hc1 : is_cooled_down cfg st (alertKey sev msg) t1 = true := by
    unfold is_cooled_down
    exact decide_eq_true hcool
  have h1 := send_alert_of_cooled cfg st sev msg t1 hen hc1
  have hkey : alertKey sev msg2 = alertKey sev msg :=
    (alertKey_eq_of_take sev msg msg2 hmsg).symm
  have hc2 : is_cooled_down cfg (send_alert cfg st sev msg t1).1 (alertKey sev msg2) t2
      = false := by
    rw [h1]
    unfold is_cooled_down
    rw [hkey, lookupLastSent_setLastSent]
    exact decide_eq_false (not_le.mpr hwin)
  have h2 := send_alert_of_not_cooled cfg (send_alert cfg st sev msg t1).1 sev msg2 t2 hen hc2
  rw [h2, h1]
  exact ⟨lookupLastSent_setLastSent st (alertKey sev msg) t1, rfl⟩

/-- Witness for C10 with no channel enabled at all: the timestamp is
still recorded and the second identical alert is still suppressed. -/
theorem C10_timestamp_before_delivery_witness :
    ((⟨true, 60, false, "", false, ""⟩ : AlertConfig).enabled = true ∧
      (100:ℚ) - lookupLastSent ⟨[]⟩ (alertKey "warning" "mem") ≥ 60 ∧
      strTake "mem" 50 = strTake "mem" 50 ∧
      (130:ℚ) - 100 < 60) ∧
    (lookupLastSent (send_alert ⟨true, 60, false, "", false, ""⟩ ⟨[]⟩ "warning" "mem" 100).1
        (alertKey "warning" "mem") = 100 ∧
      (send_alert ⟨true, 60, false, "", false, ""⟩
        (send_alert ⟨true, 60, false, "", false, ""⟩ ⟨[]⟩ "warning" "mem" 100).1
        "warning" "mem" 130).2 = []) :=
  ⟨⟨rfl, by norm_num [lookupLastSent], rfl, by norm_num⟩,
   C10_timestamp_before_delivery ⟨true, 60, false, "", false, ""⟩ ⟨[]⟩
     "warning" "mem" "mem" 100 130 rfl (by norm_num [lookupLastSent]) rfl (by norm_num)⟩

/-- The restarts a cascade performs are a ranked-order front of the
monitored services of its input list. -/
theorem restartsOf_run_cascade (apps : List MonitoredApp) (low : ℚ) (reads : Nat → ℚ) :
    ∀ (l : List AppUsage) (k : Nat), ∃ n,
      restartsOf (run_cascade apps low reads l k) = (monitoredServices apps l).take n := by
  intro l
  induction l with
  | nil => exact fun k => ⟨0, rfl⟩
  | cons u rest ih =>
    intro k
    cases hf : apps.find? (fun a => a.namePattern == u.name) with
    | none =>
      obtain ⟨n, hn⟩ := ih k
      refine ⟨n, ?_⟩
      have hs : monitoredServices apps (u :: rest) = monitoredServices apps rest := by
        unfold monitoredServices
        rw [List.filterMap_cons_none]
        rw [hf]
        rfl
      rw [hs]
      simpa [run_cascade, hf] using hn
    | some a =>
      have hs : monitoredServices apps (u :: rest) =
          a.serviceName :: monitoredServices apps rest := by
        unfold monitoredServices
        rw [List.filterMap_cons_some]
        rw [hf]
        rfl
      by_cases hr : reads k < low
      · exact ⟨1, by simp [run_cascade, hf, hr, restartsOf, hs]⟩
      · obtain ⟨n, hn⟩ := ih (k + 1)
        refine ⟨n + 1, ?_⟩
        rw [hs]
        simpa [run_cascade, hf, hr, restartsOf] using hn

/-- Once a post-restart reading is below `low`, the cascade stops: if
the reading taken after restart number `j + 1` (0-indexed `j`) is below
`low`, at most `j + 1` restarts happen in total. -/
theorem run_cascade_stops (apps : List MonitoredApp) (low : ℚ) (reads : Nat → ℚ) :
    ∀ (l : List AppUsage) (k j : Nat), reads (k + j) < low →
      (restartsOf (run_cascade apps low reads l k)).length ≤ j + 1 := by
  intro l
  induction l with
  | nil =>
    intro k j _
    simp [run_cascade, restartsOf]
  | cons u rest ih =>
    intro k j h
    cases hf : apps.find? (fun a => a.namePattern == u.name) with
    | none =>
      simpa [run_cascade, hf] using ih k j h
    | some a =>
      by_cases hr : reads k < low
      · simp [run_cascade, hf, hr, restartsOf]
      · cases j with
        | zero => exact absurd h hr
        | succ j' =>
          have h' : reads ((k + 1) + j') < low := by
            rw [show (k + 1) + j' = k + (j' + 1) by omega]
            exact h
          have hrec := ih (k + 1) j' h'
          have hstep : restartsOf (run_cascade apps low reads (u :: rest) k) =
              a.serviceName :: restartsOf (run_cascade apps low reads rest (k + 1)) := by
            simp [run_cascade, hf, hr, restartsOf]
          rw [hstep, List.length_cons]
          omega

/-- A cascade over a list with at least one monitored app restarts at
least one service. -/
theorem run_cascade_ne_nil (apps : List MonitoredApp) (low : ℚ) (reads : Nat → ℚ) :
    ∀ (l : List AppUsage) (k : Nat), monitoredServices apps l ≠ [] →
      restartsOf (run_cascade apps low reads l k) ≠ [] := by
  intro l
  induction l with
  | nil =>
    intro k h
    exact absurd rfl h
  | cons u rest ih =>
    intro k h
    cases hf : apps.find? (fun a => a.namePattern == u.name) with
    | none =>
      have hs : monitoredServices apps (u :: rest) = monitoredServices apps rest := by
        unfold monitoredServices
        rw [List.filterMap_cons_none]
        rw [hf]
        rfl
      rw [hs] at h
      simpa [run_cascade, hf] using ih k h
    | some a =>
      by_cases hr : reads k < low <;> simp [run_cascade, hf, hr, restartsOf]

/-- C1: in a tick that enters the restart cascade (initial reading at or
above `high`, post-cache-drop reading still at or above `low`), the
restarted services are a front of the ranked monitored apps, in their
ranked (descending-swap) order; the cascade does restart (it is
non-empty whenever a ranked app is monitored); and as soon as the
re-read after some restart is below `low` no further ranked app is
restarted: if the reading after restart `j + 1` is below `low`, at most
`j + 1` restarts are ever invoked in the tick. -/
theorem C1_cascade_ranked_and_stops (apps : List MonitoredApp) (high low : ℚ)
    (reads : Nat → ℚ) (top_apps : List AppUsage)
    (h0 : reads 0 ≥ high) (h1 : reads 1 ≥ low) :
    (∃ n, restartsOf (monitor_swap_usage apps high low reads top_apps) =
        (monitoredServices apps top_apps).take n) ∧
    (monitoredServices apps top_apps ≠ [] →
      restartsOf (monitor_swap_usage apps high low reads top_apps) ≠ []) ∧
    (∀ j, reads (j + 2) < low →
      (restartsOf (monitor_swap_usage apps high low reads top_apps)).length ≤ j + 1) := by
  have hm : monitor_swap_usage apps high low reads top_apps =
      Event.alert :: Event.dropCaches ::
        run_cascade apps low (fun k => reads (k + 2)) top_apps 0 := by
    unfold monitor_swap_usage
    rw [if_pos h0, if_pos h1]
  have hre : restartsOf (monitor_swap_usage apps high low reads top_apps) =
      restartsOf (run_cascade apps low (fun k => reads (k + 2)) top_apps 0) := by
    rw [hm]
    simp [restartsOf]
  rw [hre]
  refine ⟨?_, ?_, ?_⟩
  · exact restartsOf_run_cascade apps low _ top_apps 0
  · exact run_cascade_ne_nil apps low _ top_apps 0
  · intro j hj
    refine run_cascade_stops apps low (fun k => reads (k + 2)) top_apps 0 j ?_
    show reads ((0 + j) + 2) < low
    rw [Nat.zero_add]
    exact hj

/-- Witness for C1: thresholds 80/65, readings 85 then 75, the first
restart brings usage to 60, and only one of the two ranked apps is
restarted. -/
theorem C1_cascade_ranked_and_stops_witness :
    ((fun k => if k = 0 then (85:ℚ) else if k = 1 then 75 else 60) 0 ≥ 80 ∧
      (fun k => if k = 0 then (85:ℚ) else if k = 1 then 75 else 60) 1 ≥ 65) ∧
    ((∃ n, restartsOf (monitor_swap_usage threeApps 80 65
          (fun k => if k = 0 then (85:ℚ) else if k = 1 then 75 else 60)
          [⟨"a", 5, 5, false, false⟩, ⟨"b", 2, 2, false, false⟩]) =
        (monitoredServices threeApps
          [⟨"a", 5, 5, false, false⟩, ⟨"b", 2, 2, false, false⟩]).take n) ∧
     (monitoredServices threeApps
          [⟨"a", 5, 5, false, false⟩, ⟨"b", 2, 2, false, false⟩] ≠ [] →
       restartsOf (monitor_swap_usage threeApps 80 65
          (fun k => if k = 0 then (85:ℚ) else if k = 1 then 75 else 60)
          [⟨"a", 5, 5, false, false⟩, ⟨"b", 2, 2, false, false⟩]) ≠ []) ∧
     (∀ j, (fun k => if k = 0 then (85:ℚ) else if k = 1 then 75 else 60) (j + 2) < 65 →
       (restartsOf (monitor_swap_usage threeApps 80 65
          (fun k => if k = 0 then (85:ℚ) else if k = 1 then 75 else 60)
          [⟨"a", 5, 5, false, false⟩, ⟨"b", 2, 2, false, false⟩])).length ≤ j + 1)) :=
  ⟨⟨by norm_num, by norm_num⟩,
   C1_cascade_ranked_and_stops threeApps 80 65
     (fun k => if k = 0 then (85:ℚ) else if k = 1 then 75 else 60)
     [⟨"a", 5, 5, false, false⟩, ⟨"b", 2, 2, false, false⟩]
     (by norm_num) (by norm_num)⟩

/-- C7 counterexample: with `includeChildren` set for `myapp`, the scan
over a parent (pid 1, child pid 2) and the child itself (whose name also
matches the pattern) stores pid 2 twice in the entry — child pids are
appended as lists, not unioned with set semantics. -/
theorem C7_counterexample :
    scanProcesses childApps childProcs = [("myapp", ⟨[1, 2, 2], true, true⟩)] ∧
    ∃ e ∈ scanProcesses childApps childProcs, 2 ≤ e.2.pids.count 2 := by
  constructor
  · decide
  · decide

open List in
/-- Appending pids to one entry of the cache adds exactly those pids to
the flat pid multiset. -/
theorem allPids_addToEntry (cache : List (String × PidEntry)) (name : String)
    (inc : Bool) (newPids : List Nat) (fc : Bool) :
    allPids (addToEntry cache name inc newPids fc) ~ allPids cache ++ newPids := by
  induction cache with
  | nil => simp [addToEntry, allPids]
  | cons e rest ih =>
    obtain ⟨n, en⟩ := e
    unfold addToEntry
    by_cases hn : n = name
    · rw [if_pos hn]
      simp only [allPids, List.map_cons, List.flatten_cons]
      calc (en.pids ++ newPids) ++ (rest.map (fun e => e.2.pids)).flatten
          = en.pids ++ (newPids ++ (rest.map (fun e => e.2.pids)).flatten) := by
            rw [List.append_assoc]
        _ ~ en.pids ++ ((rest.map (fun e => e.2.pids)).flatten ++ newPids) :=
            List.Perm.append_left _ (List.perm_append_comm)
        _ = (en.pids ++ (rest.map (fun e => e.2.pids)).flatten) ++ newPids := by
            rw [List.append_assoc]
    · rw [if_neg hn]
      simp only [allPids, List.map_cons, List.flatten_cons]
      calc en.pids ++ allPids (addToEntry rest name inc newPids fc)
          ~ en.pids ++ (allPids rest ++ newPids) := List.Perm.append_left _ ih
        _ = (en.pids ++ allPids rest) ++ newPids := by rw [List.append_assoc]
        _ = (en.pids ++ (rest.map (fun e => e.2.pids)).flatten) ++ newPids := by
            simp [allPids]

open List in
/-- When no monitored app includes children, one scan step adds at most
the process's own pid to the flat pid multiset. -/
theorem allPids_scanStep_subperm (apps : List MonitoredApp)
    (hnc : ∀ a ∈ apps, a.includeChildren = false)
    (cache : List (String × PidEntry)) (p : ProcInfo) :
    allPids (scanStep apps cache p) <+~ allPids cache ++ [p.pid] := by
  unfold scanStep
  cases hf : apps.find? (fun a => procMatches p a.namePattern) with
  | none =>
    exact (List.sublist_append_left _ _).subperm
  | some a =>
    have ha : a.includeChildren = false := hnc a (List.mem_of_find?_eq_some hf)
    simpa [ha] using (allPids_addToEntry cache a.namePattern false [p.pid] false).subperm

open List in
/-- Folding the scan over a process list adds at most one pid per
process to the flat pid multiset. -/
theorem allPids_scan_subperm (apps : List MonitoredApp)
    (hnc : ∀ a ∈ apps, a.includeChildren = false) :
    ∀ (procs : List ProcInfo) (cache : List (String × PidEntry)),
      allPids (procs.foldl (scanStep apps) cache) <+~
        allPids cache ++ procs.map ProcInfo.pid := by
  intro procs
  induction procs with
  | nil =>
    intro cache
    simpa using List.Subperm.refl (allPids cache)
  | cons p rest ih =>
    intro cache
    have h1 := ih (scanStep apps cache p)
    have h2 := (List.subperm_append_right (rest.map ProcInfo.pid)).mpr
      (allPids_scanStep_subperm apps hnc cache p)
    have h3 : allPids ((p :: rest).foldl (scanStep apps) cache) <+~
        (allPids cache ++ [p.pid]) ++ rest.map ProcInfo.pid := (h1.trans h2)
    simpa using h3

open List in
/-- C7 (amended): a process contributes directly to at most the first
matching app, but child pids are appended without deduplication, so with
`includeChildren` a pid can occur several times (see the
counterexample).  When no monitored app includes children and live pids
are distinct, every pid occurs at most once across the whole scanned
map. -/
theorem C7_amended_no_children_once (apps : List MonitoredApp) (procs : List ProcInfo)
    (hnc : ∀ a ∈ apps, a.includeChildren = false)
    (hnodup : (procs.map ProcInfo.pid).Nodup) :
    ∀ pid, (allPids (scanProcesses apps procs)).count pid ≤ 1 := by
  have h : allPids (scanProcesses apps procs) <+~ procs.map ProcInfo.pid := by
    have := allPids_scan_subperm apps hnc procs []
    simpa [scanProcesses, allPids] using this
  obtain ⟨l, hperm, hsub⟩ := h
  have hnd : (allPids (scanProcesses apps procs)).Nodup :=
    hperm.nodup_iff.mp (hsub.nodup hnodup)
  exact fun pid => List.nodup_iff_count_le_one.mp hnd pid

/-- Witness for the amended C7: one child-free app, two distinct live
processes. -/
theorem C7_amended_no_children_once_witness :
    ((∀ a ∈ oneApp, a.includeChildren = false) ∧
      (threeProcs.map ProcInfo.pid).Nodup) ∧
    (∀ pid, (allPids (scanProcesses oneApp threeProcs)).count pid ≤ 1) :=
  ⟨⟨by decide, by decide⟩,
   C7_amended_no_children_once oneApp threeProcs (by decide) (by decide)⟩

/-- C4 counterexample: `get_top_swap_apps(force_refresh=True)` on a
state whose pid cache is fresh (scanned 10 s ago) but stale in content
(pid 1, while the live process is pid 2) performs no pid rescan — the
scan counter stays 0 and the usage is computed from the cached pid 1
(50%).  The spec-worded variant that passes `forceRefresh` through
rescans (counter 1) and reports the live pid 2 usage (80%). -/
theorem C4_counterexample :
    (get_top_swap_apps oneApp collectEnv110 stalePidState true).2.stats.process_scans = 0 ∧
    (get_top_swap_apps oneApp collectEnv110 stalePidState true).1 =
      [⟨"a", 50, 50, false, false⟩] ∧
    (get_top_swap_apps_specResolve oneApp collectEnv110 stalePidState
        true).2.stats.process_scans = 1 ∧
    (get_top_swap_apps_specResolve oneApp collectEnv110 stalePidState true).1 =
      [⟨"a", 80, 80, false, false⟩] := by
  have hscan : scanProcesses oneApp procsPid2 = [("a", ⟨[2], false, false⟩)] := by decide
  refine ⟨?_, ?_, ?_, ?_⟩ <;>
    norm_num [get_top_swap_apps, get_top_swap_apps_specResolve, get_monitored_pids_cached,
      collectEnv110, stalePidState, oneApp, initPerfStats, hscan, rankUsage, adaptiveUpdate]

/-- C4 (amended): a real collection always calls the pid resolver with
`force_refresh = false` (the source calls `get_monitored_pids_cached()`
with no argument): even a force-refreshed collection reuses the
resolver's cache whenever that cache is less than 30 s old and
non-empty, performing no process rescan. -/
theorem C4_amended_resolver_unforced (apps : List MonitoredApp) (env : CollectEnv)
    (st : EngineState)
    (hfresh : env.now - st.last_pid_scan < 30)
    (hne : st.cached_monitored_pids ≠ [])
    (htot : env.total_swap_primary ≠ 0) :
    (get_top_swap_apps apps env st true).2.stats.process_scans = st.stats.process_scans ∧
    (get_top_swap_apps apps env st true).2.cached_monitored_pids =
      st.cached_monitored_pids := by
  have hres : get_monitored_pids_cached apps env.procs env.now env.pid_scan_duration st false =
      (st.cached_monitored_pids,
        { st with stats := { st.stats with cache_hits := st.stats.cache_hits + 1 } }) := by
    unfold get_monitored_pids_cached
    rw [if_pos ⟨rfl, hfresh, hne⟩]
  unfold get_top_swap_apps
  rw [if_neg (by simp)]
  simp [htot, hres]

/-- Witness for the amended C4 on the stale-cache state. -/
theorem C4_amended_resolver_unforced_witness :
    (collectEnv110.now - stalePidState.last_pid_scan < 30 ∧
      stalePidState.cached_monitored_pids ≠ [] ∧
      collectEnv110.total_swap_primary ≠ 0) ∧
    ((get_top_swap_apps oneApp collectEnv110 stalePidState true).2.stats.process_scans =
        stalePidState.stats.process_scans ∧
      (get_top_swap_apps oneApp collectEnv110 stalePidState true).2.cached_monitored_pids =
        stalePidState.cached_monitored_pids) :=
  ⟨⟨by norm_num [collectEnv110, stalePidState], by simp [stalePidState],
     by norm_num [collectEnv110]⟩,
   C4_amended_resolver_unforced oneApp collectEnv110 stalePidState
     (by norm_num [collectEnv110, stalePidState]) (by simp [stalePidState])
     (by norm_num [collectEnv110])⟩

/-- The ranking relation is total and transitive, so `rankUsage` sorts
descending by `swap_percent`. -/
theorem rankUsage_sorted (l : List AppUsage) :
    (rankUsage l).Sorted (fun a b => b.swap_percent ≤ a.swap_percent) := by
  haveI : IsTotal AppUsage (fun a b => b.swap_percent ≤ a.swap_percent) :=
    ⟨fun a b => le_total _ _⟩
  haveI : IsTrans AppUsage (fun a b => b.swap_percent ≤ a.swap_percent) :=
    ⟨fun _ _ _ h1 h2 => le_trans h2 h1⟩
  exact List.sorted_insertionSort _ l

/-- A force-refreshed collection returns either the empty list (no swap
capacity) or a ranked list. -/
theorem get_top_force_shape (apps : List MonitoredApp) (env : CollectEnv)
    (st : EngineState) :
    (get_top_swap_apps apps env st true).1 = [] ∨
      ∃ l, (get_top_swap_apps apps env st true).1 = rankUsage l := by
  unfold get_top_swap_apps
  rw [if_neg (by simp)]
  by_cases h : (if env.total_swap_primary = 0 then env.meminfo_swap_kb * 1024
      else env.total_swap_primary) = 0
  · left
    simp only [if_pos h]
  · right
    simp only [if_neg h]
    exact ⟨_, rfl⟩

open List in
/-- C9: the list a real (force-refreshed) collection returns is sorted
in descending order of `swap_percent`; the ranking is stable (two
entries with equal percentages keep their input order); and on the
concrete three-app environment with usages 5%, 2% and 0% the returned
order is `a`, `b`, `c`. -/
theorem C9_ranked_descending_stable :
    (∀ (apps : List MonitoredApp) (env : CollectEnv) (st : EngineState),
      (get_top_swap_apps apps env st true).1.Sorted
        (fun a b => b.swap_percent ≤ a.swap_percent)) ∧
    (∀ (l : List AppUsage) (a b : AppUsage), a.swap_percent = b.swap_percent →
      [a, b] <+ l → [a, b] <+ rankUsage l) ∧
    ((get_top_swap_apps threeApps threeAppEnv initEngineState true).1.map AppUsage.name =
      ["a", "b", "c"]) := by
  refine ⟨?_, ?_, ?_⟩
  · intro apps env st
    rcases get_top_force_shape apps env st with h | ⟨l, h⟩
    · rw [h]
      exact List.sorted_nil
    · rw [h]
      exact rankUsage_sorted l
  · intro l a b hab hsub
    exact List.pair_sublist_insertionSort (le_of_eq hab.symm) hsub
  · have hscan : scanProcesses threeApps threeProcs =
        [("a", ⟨[1], false, false⟩), ("b", ⟨[2], false, false⟩),
          ("c", ⟨[3], false, false⟩)] := by decide
    norm_num [get_top_swap_apps, get_monitored_pids_cached, threeAppEnv, initEngineState,
      initPerfStats, hscan, rankUsage, threeApps]

end SwapWatch
